import Mathlib

/-!
Shallow embedding of the Axols generational particle-evolution engine
(`src/main.go`, the canonical pixel-based variant): the data model
(`Axol`, `Genome`, `Food`), the per-tick entity update (`Axol.update`),
food spawning (`updateFoodSources`), and the generational transition
(`evolvePopulation` with `crossover` and `Axol.mutate`).

Modelling conventions:
* Go `float64` values are modelled as real numbers (`ℝ`); the floating
  special values Inf/NaN have no counterpart in this model.
* Go `uint8` colour channels are modelled as `ℕ`, with the `uint8(...)`
  conversions of the source rendered as `% 256` (for integer arithmetic)
  or `Nat.floor` after the source's own `[0,255]` clamp (for float
  arithmetic), which is exactly the value the Go cast produces there.
* Every call to the process-wide random generator is threaded through
  explicitly as a draw parameter: `rand.Float64()` becomes a real draw
  (in `[0,1)` where that matters), `rand.Intn(n)` becomes a natural
  number draw (in `[0,n)`; `rand.Intn` panics for `n = 0`, which is
  modelled by an `Option` result on the one path that can reach it).
* `pixel.Vec` and its operations (`Add`, `Sub`, `To`, `Scaled`, `Len`,
  `Unit`) are embedded after the faiface/pixel geometry source; in
  particular `Vec.Unit` maps the zero vector to `(1, 0)` instead of
  dividing by a zero length.
* `sort.Slice` guarantees only that the result is a permutation ordered
  by the comparator (ties in unspecified order); it is modelled by
  `List.insertionSort` with the non-strict descending comparator, one
  concrete such permutation.  None of the verified properties depends
  on the order of ties.
-/

open scoped Classical

noncomputable section

/-- 2D vector, modelling `pixel.Vec` (two `float64` fields). -/
@[ext]
structure Vec where
  x : ℝ
  y : ℝ

namespace Vec

/-- `pixel.Vec.Add`. -/
def add (u v : Vec) : Vec := ⟨u.x + v.x, u.y + v.y⟩

/-- `pixel.Vec.Sub`. -/
def sub (u v : Vec) : Vec := ⟨u.x - v.x, u.y - v.y⟩

/-- `u.To(v) = v - u` (faiface/pixel; `to` is a Lean keyword, hence the
primed name). -/
def to' (u v : Vec) : Vec := ⟨v.x - u.x, v.y - u.y⟩

/-- `pixel.Vec.Scaled`. -/
def scaled (u : Vec) (c : ℝ) : Vec := ⟨u.x * c, u.y * c⟩

/-- `pixel.Vec.Len = math.Hypot(x, y)`. -/
def len (u : Vec) : ℝ := Real.sqrt (u.x ^ 2 + u.y ^ 2)

/-- `pixel.Vec.Unit`: the unit vector in the direction of `u`;
faiface/pixel guards the zero vector, returning `(1, 0)`. -/
def unit (u : Vec) : Vec :=
  if u.x = 0 ∧ u.y = 0 then ⟨1, 0⟩ else u.scaled (1 / u.len)

theorem len_nonneg (u : Vec) : 0 ≤ u.len := Real.sqrt_nonneg _

theorem len_eq_zero_iff (u : Vec) : u.len = 0 ↔ u.x = 0 ∧ u.y = 0 := by
  unfold len
  rw [Real.sqrt_eq_zero (by positivity)]
  constructor
  · intro h
    constructor
    · nlinarith [sq_nonneg u.x, sq_nonneg u.y]
    · nlinarith [sq_nonneg u.x, sq_nonneg u.y]
  · rintro ⟨hx, hy⟩
    rw [hx, hy]; ring

theorem len_pos_of_ne_zero (u : Vec) (h : ¬(u.x = 0 ∧ u.y = 0)) : 0 < u.len := by
  rcases lt_or_eq_of_le (len_nonneg u) with hlt | heq
  · exact hlt
  · exact absurd ((len_eq_zero_iff u).mp heq.symm) h

theorem len_scaled (u : Vec) (c : ℝ) : (u.scaled c).len = |c| * u.len := by
  unfold len scaled
  have : (u.x * c) ^ 2 + (u.y * c) ^ 2 = c ^ 2 * (u.x ^ 2 + u.y ^ 2) := by ring
  rw [this, Real.sqrt_mul (sq_nonneg c), Real.sqrt_sq_eq_abs]

/-- The length of the unit vector is always 1: either the zero-vector
guard returns `(1,0)`, or the vector is rescaled by its positive length. -/
theorem len_unit (u : Vec) : u.unit.len = 1 := by
  unfold unit
  split_ifs with h
  · show Real.sqrt ((1:ℝ) ^ 2 + (0:ℝ) ^ 2) = 1
    norm_num
  · have hpos : 0 < u.len := len_pos_of_ne_zero u h
    rw [len_scaled, abs_of_pos (by positivity : (0:ℝ) < 1 / u.len)]
    field_simp

theorem unit_zero : (Vec.mk 0 0).unit = ⟨1, 0⟩ := by
  unfold unit; simp

/-- Renormalizing a vector that already has length `c > 0` to length `c`
is the identity. -/
theorem unit_scaled_self (u : Vec) (c : ℝ) (hc : 0 < c) (h : u.len = c) :
    u.unit.scaled c = u := by
  have hne : ¬(u.x = 0 ∧ u.y = 0) := by
    intro hz
    rw [(len_eq_zero_iff u).mpr hz] at h
    exact absurd h.symm (ne_of_gt hc)
  unfold unit
  rw [if_neg hne]
  unfold scaled
  have hlen : u.len ≠ 0 := by rw [h]; exact ne_of_gt hc
  ext
  · show u.x * (1 / u.len) * c = u.x
    rw [h]; field_simp
  · show u.y * (1 / u.len) * c = u.y
    rw [h]; field_simp

theorem len_axis (a : ℝ) (h : 0 ≤ a) : (Vec.mk a 0).len = a := by
  unfold len
  simp only []
  rw [show a ^ 2 + (0:ℝ) ^ 2 = a ^ 2 by ring, Real.sqrt_sq h]

theorem len_axis_neg (a : ℝ) (h : 0 ≤ a) : (Vec.mk (-a) 0).len = a := by
  unfold len
  simp only []
  rw [show (-a) ^ 2 + (0:ℝ) ^ 2 = a ^ 2 by ring, Real.sqrt_sq h]

end Vec

/-- Colour with four channels, modelling Go `color.RGBA` (`uint8` each,
so every channel of a well-formed colour lies in `[0, 255]`). -/
structure RGBA where
  r : ℕ
  g : ℕ
  b : ℕ
  a : ℕ
deriving DecidableEq

/-- Heritable traits of an axol (`Genome` in the source). -/
structure Genome where
  size : ℝ
  speed : ℝ
  senseRadius : ℝ
  color : RGBA

/-- A single particle (`Axol` in the source).  `species` is a Go `int`. -/
structure Axol where
  pos : Vec
  vel : Vec
  genome : Genome
  species : ℤ
  tailAngle : ℝ
  consumedFood : ℕ
  timeSinceLast : ℝ

/-- A food source (`Food` in the source); the biome is a bare enum tag. -/
structure Food where
  pos : Vec
  radius : ℝ
  color : RGBA
  biome : ℕ
  nutrition : ℝ

/-! Constants of `src/main.go`. -/

def windowWidth : ℝ := 900
def windowHeight : ℝ := 700
def mutationRate : ℝ := 0.1
def foodSpawnRate : ℝ := 0.01
def consumeRadius : ℝ := 10

/-! ### Entity construction (`NewAxol`) -/

/-- The species-keyed initial genome template chosen by `NewAxol`
(`if species == 0 { ... } else { ... }`). -/
def speciesGenome (species : ℤ) : Genome :=
  if species = 0 then
    { size := 5, speed := 50, senseRadius := 30,
      color := ⟨100, 200, 255, 150⟩ }
  else
    { size := 7, speed := 40, senseRadius := 40,
      color := ⟨255, 100, 200, 150⟩ }

/-- The four `rand.Float64()` draws consumed by `NewAxol`
(position x, position y, velocity x, velocity y), each in `[0,1)`. -/
structure NewAxolDraws where
  px : ℝ
  py : ℝ
  vx : ℝ
  vy : ℝ

/-- `NewAxol`: fresh axol with the species template genome, a uniformly
random position over the arena, and a random direction scaled to the
template's speed. -/
def NewAxol (species : ℤ) (d : NewAxolDraws) : Axol :=
  let genome := speciesGenome species
  { pos := ⟨d.px * windowWidth, d.py * windowHeight⟩
    vel := (Vec.mk (d.vx * 2 - 1) (d.vy * 2 - 1)).unit.scaled genome.speed
    genome := genome
    species := species
    tailAngle := 0
    consumedFood := 0
    timeSinceLast := 0 }

/-! ### Per-tick update (`Axol.Update`) -/

/-- Accumulator loop of `Axol.findNearestFood`: keeps the first food
whose distance beats the current minimum (`minDist` starts at `+Inf`,
so the first food always becomes the initial candidate). -/
def nearestAux (pos : Vec) : List Food → Option (Food × ℝ) → Option (Food × ℝ)
  | [], acc => acc
  | f :: rest, acc =>
    let dist := (pos.to' f.pos).len
    match acc with
    | none => nearestAux pos rest (some (f, dist))
    | some (g, m) =>
      if dist < m then nearestAux pos rest (some (f, dist))
      else nearestAux pos rest (some (g, m))

/-- `Axol.findNearestFood`, which only reads the receiver's position. -/
def findNearestFood (pos : Vec) (foods : List Food) : Option Food :=
  (nearestAux pos foods none).map Prod.fst

/-- The foraging scan of `Axol.Update`: the first food (in slice order)
within `consumeRadius` of the entity, if any. -/
def firstFoodInRange (pos : Vec) : List Food → Option Food
  | [] => none
  | f :: rest =>
    if (pos.to' f.pos).len ≤ consumeRadius then some f
    else firstFoodInRange pos rest

/-- The two `rand.Float64()` draws of the random-steering branch of
`Axol.Update`, each in `[0,1)`. -/
structure UpdateDraws where
  rx : ℝ
  ry : ℝ

/-- Position integration `a.pos = a.pos.Add(a.vel.Scaled(dt))`. -/
def integratePos (a : Axol) (dt : ℝ) : Vec := a.pos.add (a.vel.scaled dt)

/-- Boundary handling of `Axol.Update`: each velocity component is
negated when the (already integrated) position lies outside the arena
on that axis. -/
def bounceVel (pos1 : Vec) (vel : Vec) : Vec :=
  ⟨if pos1.x < 0 ∨ windowWidth < pos1.x then -vel.x else vel.x,
   if pos1.y < 0 ∨ windowHeight < pos1.y then -vel.y else vel.y⟩

/-- Steering step of `Axol.Update`: blend toward the nearest in-range
food, or apply a random perturbation, then renormalize to the genome's
speed. -/
def steerVel (pos1 vel1 : Vec) (g : Genome) (foods : List Food)
    (d : UpdateDraws) (dt : ℝ) : Vec :=
  match findNearestFood pos1 foods with
  | some nf =>
    if (pos1.to' nf.pos).len ≤ g.senseRadius then
      ((vel1.add ((nf.pos.sub pos1).unit.scaled (dt * g.speed))).unit).scaled g.speed
    else
      ((vel1.add ((Vec.mk (d.rx * 2 - 1) (d.ry * 2 - 1)).scaled (dt * g.speed))).unit).scaled g.speed
  | none =>
    ((vel1.add ((Vec.mk (d.rx * 2 - 1) (d.ry * 2 - 1)).scaled (dt * g.speed))).unit).scaled g.speed

/-- `Axol.Update(dt, foods)`: integrate, bounce, animate the tail,
age `timeSinceLast`, steer, then consume the first in-range food
(`consumeFood` increments the counter and resets `timeSinceLast`;
the food list itself is never modified by the source's `Update`). -/
def Axol.update (a : Axol) (dt : ℝ) (foods : List Food) (d : UpdateDraws) : Axol :=
  let pos1 := integratePos a dt
  let vel1 := bounceVel pos1 a.vel
  let vel2 := steerVel pos1 vel1 a.genome foods d dt
  match firstFoodInRange pos1 foods with
  | some _ =>
    { a with pos := pos1, vel := vel2, tailAngle := a.tailAngle + 6 * dt,
             consumedFood := a.consumedFood + 1, timeSinceLast := 0 }
  | none =>
    { a with pos := pos1, vel := vel2, tailAngle := a.tailAngle + 6 * dt,
             timeSinceLast := a.timeSinceLast + dt }

/-! ### Food spawning (`updateFoodSources`, `NewFood`) -/

/-- The draws consumed by `NewFood`: position, radius and nutrition are
`rand.Float64()` draws in `[0,1)`; the colour channels are
`rand.Intn(256)` draws and the biome is a `rand.Intn(4)` draw. -/
structure FoodDraws where
  px : ℝ
  py : ℝ
  radius : ℝ
  cr : ℕ
  cg : ℕ
  cb : ℕ
  nutrition : ℝ
  biome : ℕ

/-- `NewFood`: a food source with random position, radius in `[3,8)`,
random colour (alpha fixed at 150) and nutrition in `[0,10)`. -/
def NewFood (d : FoodDraws) : Food :=
  { pos := ⟨d.px * windowWidth, d.py * windowHeight⟩
    radius := d.radius * 5 + 3
    color := ⟨d.cr, d.cg, d.cb, 150⟩
    biome := d.biome
    nutrition := d.nutrition * 10 }

/-- `updateFoodSources`: with probability `foodSpawnRate` (spawn draw in
`[0,1)`), append one new food; nothing else changes.  Note the spawn
trial does not depend on `dt`. -/
def updateFoodSources (foods : List Food) (dt : ℝ) (spawnDraw : ℝ)
    (fd : FoodDraws) : List Food :=
  if spawnDraw < foodSpawnRate then foods ++ [NewFood fd] else foods

/-- Junk default entity used only to make list indexing total
(`List.getD`); every indexed access in the development stays in
bounds. -/
def dummyAxol : Axol :=
  { pos := ⟨0, 0⟩, vel := ⟨0, 0⟩,
    genome := { size := 1, speed := 1, senseRadius := 0, color := ⟨0, 0, 0, 0⟩ },
    species := 0, tailAngle := 0, consumedFood := 0, timeSinceLast := 0 }

/-- One iteration of the main loop's simulation work (`run`): every
axol is updated against the same food list (the Go `Update` receives
the slice by value and never modifies it), then the food list runs its
spawn trial. -/
def tickWorld (axols : List Axol) (foods : List Food) (dt : ℝ)
    (ad : ℕ → UpdateDraws) (spawnDraw : ℝ) (fd : FoodDraws) :
    List Axol × List Food :=
  ((List.range axols.length).map
    (fun i => (axols.getD i dummyAxol).update dt foods (ad i)),
   updateFoodSources foods dt spawnDraw fd)

/-! ### Generational transition (`evolvePopulation`, `crossover`, `mutate`) -/

/-- `averageColor`: each channel is the truncating integer average of
the parents' channels; the trailing `% 256` is the `uint8(...)`
conversion of the source (a no-op for well-formed channels). -/
def averageColor (c1 c2 : RGBA) : RGBA :=
  ⟨(c1.r + c2.r) / 2 % 256, (c1.g + c2.g) / 2 % 256,
   (c1.b + c2.b) / 2 % 256, (c1.a + c2.a) / 2 % 256⟩

/-- `crossover`: build a brand-new axol from the first parent's species
template (fresh random position and velocity), then overwrite the
genome's numeric traits with parent averages and the colour with the
channel-wise average.  Position and velocity are left as `NewAxol`
chose them. -/
def crossover (parent1 parent2 : Axol) (d : NewAxolDraws) : Axol :=
  let child := NewAxol parent1.species d
  { child with genome :=
    { size := (parent1.genome.size + parent2.genome.size) / 2
      speed := (parent1.genome.speed + parent2.genome.speed) / 2
      senseRadius := (parent1.genome.senseRadius + parent2.genome.senseRadius) / 2
      color := averageColor parent1.genome.color parent2.genome.color } }

/-- `math.Max(0, math.Min(255, x))` as used by `mutateColor`. -/
def clamp255 (x : ℝ) : ℝ := max 0 (min 255 x)

/-- `mutateColor`: each channel moves by an additive offset in
`[-10, 10)` (draw in `[0,1)` scaled by 20, shifted by 10), clamped to
`[0, 255]` and truncated back to an integer by the `uint8(...)` cast;
the alpha channel is untouched. -/
def mutateColor (c : RGBA) (d1 d2 d3 : ℝ) : RGBA :=
  ⟨Nat.floor (clamp255 ((c.r : ℝ) + d1 * 20 - 10)),
   Nat.floor (clamp255 ((c.g : ℝ) + d2 * 20 - 10)),
   Nat.floor (clamp255 ((c.b : ℝ) + d3 * 20 - 10)),
   c.a⟩

/-- The random draws consumed by one (triggered) run of `Axol.mutate`:
the trigger draw and, when it fires, one multiplicative draw per
numeric trait and one additive draw per colour channel, all
`rand.Float64()` values in `[0,1)`. -/
structure MutateDraws where
  trigger : ℝ
  m1 : ℝ
  m2 : ℝ
  m3 : ℝ
  c1 : ℝ
  c2 : ℝ
  c3 : ℝ

/-- `Axol.mutate`: with probability `mutationRate`, scale each numeric
trait by an independent factor `1 + (draw*0.2 - 0.1) ∈ [0.9, 1.1)` and
perturb the colour; otherwise do nothing. -/
def Axol.mutate (p : Axol) (d : MutateDraws) : Axol :=
  if d.trigger < mutationRate then
    { p with genome :=
      { size := p.genome.size * (1 + (d.m1 * 0.2 - 0.1))
        speed := p.genome.speed * (1 + (d.m2 * 0.2 - 0.1))
        senseRadius := p.genome.senseRadius * (1 + (d.m3 * 0.2 - 0.1))
        color := mutateColor p.genome.color d.c1 d.c2 d.c3 } }
  else p

/-- The comparator order realized by
`sort.Slice(axols, func(i, j) { return axols[i].consumedFood > axols[j].consumedFood })`:
the sorted slice is non-strictly descending in `consumedFood`. -/
def fitter (a b : Axol) : Prop := b.consumedFood ≤ a.consumedFood

instance : DecidableRel fitter := fun a b =>
  inferInstanceAs (Decidable (b.consumedFood ≤ a.consumedFood))

instance : IsTotal Axol fitter :=
  ⟨fun a b => le_total b.consumedFood a.consumedFood⟩

instance : IsTrans Axol fitter :=
  ⟨fun _ _ _ hab hbc => le_trans hbc hab⟩

/-- The fitness ranking of `evolvePopulation`: some permutation sorted
descending by `consumedFood` (`sort.Slice` fixes no tie order;
insertion sort realizes one admissible outcome, and no verified
property depends on the order of ties). -/
def rankByFitness (axols : List Axol) : List Axol :=
  List.insertionSort fitter axols

/-- The final reset loop of `evolvePopulation`
(`a.consumedFood = 0`; note it touches nothing else). -/
def resetConsumed (a : Axol) : Axol := { a with consumedFood := 0 }

/-- The draws consumed when filling one child slot of
`evolvePopulation`: two `rand.Intn(survivors)` parent indices (each in
`[0, survivors)`), the `NewAxol` draws used inside `crossover`, and the
`mutate` draws. -/
structure ChildDraws where
  p1 : ℕ
  p2 : ℕ
  na : NewAxolDraws
  mt : MutateDraws

/-- `evolvePopulation`: sort by fitness descending, keep the top
`⌊N/2⌋`, refill every remaining slot with a mutated crossover child of
two uniformly drawn survivors, then zero every `consumedFood`.

When the child loop runs with an empty survivor pool (exactly the case
`N = 1`), the source calls `rand.Intn(0)`, which panics; that path is
modelled as `none`. -/
def evolvePopulation (axols : List Axol) (draws : ℕ → ChildDraws) :
    Option (List Axol) :=
  let sorted := rankByFitness axols
  let n := axols.length
  let survivors := n / 2
  if survivors = 0 ∧ survivors < n then none
  else some ((List.range n).map fun i =>
    resetConsumed
      (if i < survivors then sorted.getD i dummyAxol
       else
         let d := draws i
         (crossover (sorted.getD d.p1 dummyAxol) (sorted.getD d.p2 dummyAxol)
            d.na).mutate d.mt))

/-! ### Projection lemmas for the per-tick update -/

theorem Axol.update_pos (a : Axol) (dt : ℝ) (foods : List Food) (d : UpdateDraws) :
    (a.update dt foods d).pos = integratePos a dt := by
  simp only [Axol.update]
  cases firstFoodInRange (integratePos a dt) foods <;> rfl

theorem Axol.update_vel (a : Axol) (dt : ℝ) (foods : List Food) (d : UpdateDraws) :
    (a.update dt foods d).vel =
      steerVel (integratePos a dt) (bounceVel (integratePos a dt) a.vel)
        a.genome foods d dt := by
  simp only [Axol.update]
  cases firstFoodInRange (integratePos a dt) foods <;> rfl

theorem Axol.update_consumedFood (a : Axol) (dt : ℝ) (foods : List Food)
    (d : UpdateDraws) :
    (a.update dt foods d).consumedFood =
      if (firstFoodInRange (integratePos a dt) foods).isSome then
        a.consumedFood + 1
      else a.consumedFood := by
  simp only [Axol.update]
  cases h : firstFoodInRange (integratePos a dt) foods <;> simp [h]

theorem Axol.update_timeSinceLast (a : Axol) (dt : ℝ) (foods : List Food)
    (d : UpdateDraws) :
    (a.update dt foods d).timeSinceLast =
      if (firstFoodInRange (integratePos a dt) foods).isSome then 0
      else a.timeSinceLast + dt := by
  simp only [Axol.update]
  cases h : firstFoodInRange (integratePos a dt) foods <;> simp [h]

/-! ### Further shared helper lemmas -/

theorem Vec.len_zero : (Vec.mk 0 0).len = 0 :=
  (Vec.len_eq_zero_iff _).mpr ⟨rfl, rfl⟩

theorem integratePos_zero (a : Axol) : integratePos a 0 = a.pos := by
  unfold integratePos
  ext <;> simp [Vec.add, Vec.scaled]

theorem crossover_timeSinceLast (p1 p2 : Axol) (d : NewAxolDraws) :
    (crossover p1 p2 d).timeSinceLast = 0 := rfl

theorem mutate_timeSinceLast (p : Axol) (d : MutateDraws) :
    (p.mutate d).timeSinceLast = p.timeSinceLast := by
  unfold Axol.mutate
  split_ifs <;> rfl

theorem firstFoodInRange_eq_none (pos : Vec) (foods : List Food)
    (h : ∀ f ∈ foods, ¬ (pos.to' f.pos).len ≤ consumeRadius) :
    firstFoodInRange pos foods = none := by
  induction foods with
  | nil => rfl
  | cons f rest ih =>
    simp only [firstFoodInRange]
    rw [if_neg (h f (by simp))]
    exact ih fun g hg => h g (by simp [hg])

theorem steerVel_none (pos1 vel1 : Vec) (g : Genome) (foods : List Food)
    (d : UpdateDraws) (dt : ℝ) (h : findNearestFood pos1 foods = none) :
    steerVel pos1 vel1 g foods d dt =
      ((vel1.add ((Vec.mk (d.rx * 2 - 1) (d.ry * 2 - 1)).scaled
        (dt * g.speed))).unit).scaled g.speed := by
  unfold steerVel
  rw [h]

theorem steerVel_some (pos1 vel1 : Vec) (g : Genome) (foods : List Food)
    (d : UpdateDraws) (dt : ℝ) (nf : Food)
    (h : findNearestFood pos1 foods = some nf) :
    steerVel pos1 vel1 g foods d dt =
      if (pos1.to' nf.pos).len ≤ g.senseRadius then
        ((vel1.add ((nf.pos.sub pos1).unit.scaled (dt * g.speed))).unit).scaled
          g.speed
      else
        ((vel1.add ((Vec.mk (d.rx * 2 - 1) (d.ry * 2 - 1)).scaled
          (dt * g.speed))).unit).scaled g.speed := by
  unfold steerVel
  rw [h]

theorem findNearestFood_nil (pos : Vec) : findNearestFood pos [] = none := rfl

theorem findNearestFood_single (pos : Vec) (f : Food) :
    findNearestFood pos [f] = some f := rfl

/-! ### Concrete sample data used by counterexamples and witnesses -/

/-- Constant draws standing in for one batch of random values. -/
def constNewAxolDraws : NewAxolDraws := ⟨1/2, 1/2, 1/2, 1/2⟩

def constMutateDraws : MutateDraws := ⟨1/2, 1/2, 1/2, 1/2, 1/2, 1/2, 1/2⟩

def constChildDraws : ChildDraws :=
  { p1 := 0, p2 := 0, na := constNewAxolDraws, mt := constMutateDraws }

def constUpdateDraws : UpdateDraws := ⟨1/2, 1/2⟩

/-- A species-0 axol in the middle of the arena, moving along the
x-axis at its genome speed. -/
def axolMid : Axol :=
  { pos := ⟨450, 350⟩, vel := ⟨50, 0⟩, genome := speciesGenome 0,
    species := 0, tailAngle := 0, consumedFood := 0, timeSinceLast := 0 }

/-! ### C1: population size across the generational transition -/

/--
C1, counterexample to the claim as stated.  The claim quantifies over
*every* population, but a singleton population never yields a next
population at all: `survivors = 1/2 = 0`, the child loop runs once, and
`rand.Intn(0)` panics (modelled as `none`).
-/
theorem C1_counterexample :
    evolvePopulation [axolMid] (fun _ => constChildDraws) = none := by
  simp [evolvePopulation]

/--
C1, amended: for every population whose size is not exactly 1 (size 1
makes `evolvePopulation` panic through `rand.Intn(0)`), the returned
population has exactly as many entities as the input, for any draws.
-/
theorem evolvePopulation_preserves_length (axols : List Axol)
    (draws : ℕ → ChildDraws) (h : axols.length ≠ 1) :
    (evolvePopulation axols draws).map List.length = some axols.length := by
  simp only [evolvePopulation]
  rw [if_neg (by omega : ¬(axols.length / 2 = 0 ∧ axols.length / 2 < axols.length))]
  simp

/-- C1 witness: a two-entity population keeps exactly two entities. -/
theorem evolvePopulation_preserves_length_witness :
    ([axolMid, axolMid] : List Axol).length ≠ 1 ∧
      (evolvePopulation [axolMid, axolMid] (fun _ => constChildDraws)).map
          List.length = some ([axolMid, axolMid] : List Axol).length :=
  ⟨by simp, evolvePopulation_preserves_length _ _ (by simp)⟩

/-! ### C3: survivor selection and fitness dominance -/

/--
C3: for every population that survives the transition (size ≠ 1, see
C1), the first `⌊N/2⌋` slots of the output are exactly the top
`⌊N/2⌋` entities of the fitness ranking (with their counters reset) —
for odd `N` the leftover middle entity of the ranking is *not* among
them — and every ranked survivor's `consumedFood` is at least every
ranked non-survivor's `consumedFood`.
-/
theorem survivors_top_half_dominate (axols : List Axol)
    (draws : ℕ → ChildDraws) (h : axols.length ≠ 1) :
    ∃ out, evolvePopulation axols draws = some out ∧
      (∀ i < axols.length / 2,
        out.getD i dummyAxol =
          resetConsumed ((rankByFitness axols).getD i dummyAxol)) ∧
      ∀ s ∈ (rankByFitness axols).take (axols.length / 2),
        ∀ t ∈ (rankByFitness axols).drop (axols.length / 2),
          t.consumedFood ≤ s.consumedFood := by
  refine ⟨(List.range axols.length).map fun i =>
    resetConsumed
      (if i < axols.length / 2 then
        (rankByFitness axols).getD i dummyAxol
       else
         ((crossover ((rankByFitness axols).getD (draws i).p1 dummyAxol)
            ((rankByFitness axols).getD (draws i).p2 dummyAxol)
            (draws i).na).mutate (draws i).mt)), ?_, ?_, ?_⟩
  · simp only [evolvePopulation]
    rw [if_neg (by omega :
      ¬(axols.length / 2 = 0 ∧ axols.length / 2 < axols.length))]
  · intro i hi
    have hi' : i < axols.length := lt_of_lt_of_le hi (Nat.div_le_self _ _)
    rw [List.getD_eq_getElem _ _ (by simpa using hi')]
    simp [hi]
  · intro s hs t ht
    exact (List.sorted_insertionSort fitter axols).rel_of_mem_take_of_mem_drop
      hs ht

/-- The four-entity sample population of the spec's selection scenario,
with consumption counts `[0, 10, 5, 0]`. -/
def popFour : List Axol :=
  [{ axolMid with consumedFood := 0 }, { axolMid with consumedFood := 10 },
   { axolMid with consumedFood := 5 }, { axolMid with consumedFood := 0 }]

/-- C3 witness: on `popFour` the two survivors hold counts 10 and 5,
each at least the non-survivors' counts. -/
theorem survivors_top_half_dominate_witness :
    popFour.length ≠ 1 ∧
      ∃ out, evolvePopulation popFour (fun _ => constChildDraws) = some out ∧
        (∀ i < popFour.length / 2,
          out.getD i dummyAxol =
            resetConsumed ((rankByFitness popFour).getD i dummyAxol)) ∧
        ∀ s ∈ (rankByFitness popFour).take (popFour.length / 2),
          ∀ t ∈ (rankByFitness popFour).drop (popFour.length / 2),
            t.consumedFood ≤ s.consumedFood :=
  ⟨by simp [popFour],
   survivors_top_half_dominate popFour (fun _ => constChildDraws)
     (by simp [popFour])⟩

/-! ### C4: crossover is the exact parent midpoint -/

/--
C4: for any two parents (with well-formed `uint8` colour channels) and
any draws, the crossover child's `size`, `speed` and `senseRadius` are
exactly the arithmetic means of the parents' values, its colour is the
channel-wise truncating integer average, and its species tag is the
first parent's.  (Mutation is a separate step, applied after
`crossover` by `evolvePopulation`, so this is the "no mutation"
child.)
-/
theorem crossover_midpoint (p1 p2 : Axol) (d : NewAxolDraws)
    (h1r : p1.genome.color.r ≤ 255) (h1g : p1.genome.color.g ≤ 255)
    (h1b : p1.genome.color.b ≤ 255) (h1a : p1.genome.color.a ≤ 255)
    (h2r : p2.genome.color.r ≤ 255) (h2g : p2.genome.color.g ≤ 255)
    (h2b : p2.genome.color.b ≤ 255) (h2a : p2.genome.color.a ≤ 255) :
    (crossover p1 p2 d).genome.size = (p1.genome.size + p2.genome.size) / 2 ∧
    (crossover p1 p2 d).genome.speed = (p1.genome.speed + p2.genome.speed) / 2 ∧
    (crossover p1 p2 d).genome.senseRadius =
      (p1.genome.senseRadius + p2.genome.senseRadius) / 2 ∧
    (crossover p1 p2 d).genome.color =
      ⟨(p1.genome.color.r + p2.genome.color.r) / 2,
       (p1.genome.color.g + p2.genome.color.g) / 2,
       (p1.genome.color.b + p2.genome.color.b) / 2,
       (p1.genome.color.a + p2.genome.color.a) / 2⟩ ∧
    (crossover p1 p2 d).species = p1.species := by
  refine ⟨rfl, rfl, rfl, ?_, rfl⟩
  show averageColor p1.genome.color p2.genome.color = _
  unfold averageColor
  congr 1 <;> omega

/-- A species-1 axol used as the second parent in witnesses. -/
def axolSp1 : Axol :=
  { pos := ⟨100, 100⟩, vel := ⟨0, 40⟩, genome := speciesGenome 1,
    species := 1, tailAngle := 0, consumedFood := 0, timeSinceLast := 0 }

/-- C4 witness: the child of the two species templates. -/
theorem crossover_midpoint_witness :
    (crossover axolMid axolSp1 constNewAxolDraws).genome.size =
      (axolMid.genome.size + axolSp1.genome.size) / 2 ∧
    (crossover axolMid axolSp1 constNewAxolDraws).genome.speed =
      (axolMid.genome.speed + axolSp1.genome.speed) / 2 ∧
    (crossover axolMid axolSp1 constNewAxolDraws).genome.senseRadius =
      (axolMid.genome.senseRadius + axolSp1.genome.senseRadius) / 2 ∧
    (crossover axolMid axolSp1 constNewAxolDraws).genome.color =
      ⟨(axolMid.genome.color.r + axolSp1.genome.color.r) / 2,
       (axolMid.genome.color.g + axolSp1.genome.color.g) / 2,
       (axolMid.genome.color.b + axolSp1.genome.color.b) / 2,
       (axolMid.genome.color.a + axolSp1.genome.color.a) / 2⟩ ∧
    (crossover axolMid axolSp1 constNewAxolDraws).species = axolMid.species :=
  crossover_midpoint axolMid axolSp1 constNewAxolDraws
    (by simp [axolMid, speciesGenome]) (by simp [axolMid, speciesGenome])
    (by simp [axolMid, speciesGenome]) (by simp [axolMid, speciesGenome])
    (by simp [axolSp1, speciesGenome]) (by simp [axolSp1, speciesGenome])
    (by simp [axolSp1, speciesGenome]) (by simp [axolSp1, speciesGenome])

/-! ### C10: crossover children get fresh position and velocity -/

/--
C10: the crossover child's position is the fresh uniform draw over the
arena and its velocity is the fresh random direction scaled to the
*first parent's species-template* speed; neither depends on the
parents' position, velocity, or averaged genome (the right-hand sides
mention only the draws and `parent1.species`), and the velocity's
magnitude is exactly the template speed, not the child's averaged
`genome.speed`.
-/
theorem crossover_fresh_pos_vel (p1 p2 : Axol) (d : NewAxolDraws) :
    (crossover p1 p2 d).pos = ⟨d.px * windowWidth, d.py * windowHeight⟩ ∧
    (crossover p1 p2 d).vel =
      (Vec.mk (d.vx * 2 - 1) (d.vy * 2 - 1)).unit.scaled
        (speciesGenome p1.species).speed ∧
    (crossover p1 p2 d).vel.len = (speciesGenome p1.species).speed := by
  refine ⟨rfl, rfl, ?_⟩
  show ((Vec.mk (d.vx * 2 - 1) (d.vy * 2 - 1)).unit.scaled
    (speciesGenome p1.species).speed).len = _
  rw [Vec.len_scaled, Vec.len_unit, mul_one]
  unfold speciesGenome
  split_ifs <;> simp

/-! ### C6: mutation keeps the traits in their valid ranges -/

/--
C6: for any axol whose traits satisfy `size > 0`, `speed > 0`,
`senseRadius ≥ 0`, and any outcome of the random draws (each
`rand.Float64()` draw is non-negative), the mutated genome still
satisfies the same bounds: the multiplicative factor
`1 + (draw*0.2 - 0.1)` always lies in `[0.9, 1.1)`, hence is strictly
positive.  In this real-valued model no trait can become Inf or NaN;
the factor's bound also rules out any divergence in one step.
-/
theorem mutate_trait_bounds (p : Axol) (d : MutateDraws)
    (hsize : 0 < p.genome.size) (hspeed : 0 < p.genome.speed)
    (hsense : 0 ≤ p.genome.senseRadius)
    (hm1 : 0 ≤ d.m1) (hm2 : 0 ≤ d.m2) (hm3 : 0 ≤ d.m3) :
    0 < (p.mutate d).genome.size ∧ 0 < (p.mutate d).genome.speed ∧
      0 ≤ (p.mutate d).genome.senseRadius := by
  unfold Axol.mutate
  split_ifs with h
  · refine ⟨?_, ?_, ?_⟩
    · show 0 < p.genome.size * (1 + (d.m1 * 0.2 - 0.1))
      have : (0:ℝ) < 1 + (d.m1 * 0.2 - 0.1) := by nlinarith
      exact mul_pos hsize this
    · show 0 < p.genome.speed * (1 + (d.m2 * 0.2 - 0.1))
      have : (0:ℝ) < 1 + (d.m2 * 0.2 - 0.1) := by nlinarith
      exact mul_pos hspeed this
    · show 0 ≤ p.genome.senseRadius * (1 + (d.m3 * 0.2 - 0.1))
      have : (0:ℝ) ≤ 1 + (d.m3 * 0.2 - 0.1) := by nlinarith
      exact mul_nonneg hsense this
  · exact ⟨hsize, hspeed, hsense⟩

/-- Mutation draws whose trigger fires (`trigger = 0 < 0.1`). -/
def mutDrawsHit : MutateDraws := ⟨0, 1/2, 1/2, 1/2, 1/2, 1/2, 1/2⟩

/-- C6 witness: a triggered mutation of the species-0 template keeps
all traits in range. -/
theorem mutate_trait_bounds_witness :
    0 < (axolMid.mutate mutDrawsHit).genome.size ∧
      0 < (axolMid.mutate mutDrawsHit).genome.speed ∧
      0 ≤ (axolMid.mutate mutDrawsHit).genome.senseRadius :=
  mutate_trait_bounds axolMid mutDrawsHit
    (by norm_num [axolMid, speciesGenome]) (by norm_num [axolMid, speciesGenome])
    (by norm_num [axolMid, speciesGenome]) (by norm_num [mutDrawsHit])
    (by norm_num [mutDrawsHit]) (by norm_num [mutDrawsHit])

/-! ### C5: which per-entity counters the rollover actually resets -/

/-- An axol that consumed during the generation: fitness 3, and 5 time
units elapsed since its last consumption. -/
def axolHungry : Axol := { axolMid with consumedFood := 3, timeSinceLast := 5 }

/--
C5, counterexample to the claim as stated.  In the two-entity
population `[axolHungry, axolMid]` the retained survivor is
`axolHungry` (fitness 3 beats 0); the rollover zeroes its
`consumedFood` but leaves its `timeSinceLast = 5`, so not every output
entity has `timeSinceLastConsumption = 0`.
-/
theorem C5_counterexample :
    (((evolvePopulation [axolHungry, axolMid]
        (fun _ => constChildDraws)).getD []).getD 0 dummyAxol).timeSinceLast
      ≠ 0 := by
  have hsort : rankByFitness [axolHungry, axolMid] = [axolHungry, axolMid] := by
    simp [rankByFitness, fitter, axolHungry, axolMid]
  simp only [evolvePopulation, hsort]
  norm_num [resetConsumed, axolHungry, axolMid, List.range_succ]

/--
C5, amended: every entity of the returned population has
`consumedFood = 0`, and every *child* slot also has
`timeSinceLastConsumption = 0` (children are built fresh by
`crossover`), but each retained survivor keeps the
`timeSinceLastConsumption` it had in the ranked pre-rollover
population — the reset loop touches only `consumedFood`.
-/
theorem evolvePopulation_reset_fields (axols : List Axol)
    (draws : ℕ → ChildDraws) (out : List Axol)
    (h : evolvePopulation axols draws = some out) :
    (∀ a ∈ out, a.consumedFood = 0) ∧
      (∀ i, axols.length / 2 ≤ i → i < axols.length →
        (out.getD i dummyAxol).timeSinceLast = 0) ∧
      (∀ i < axols.length / 2,
        (out.getD i dummyAxol).timeSinceLast =
          ((rankByFitness axols).getD i dummyAxol).timeSinceLast) := by
  simp only [evolvePopulation] at h
  by_cases hc : axols.length / 2 = 0 ∧ axols.length / 2 < axols.length
  · rw [if_pos hc] at h
    cases h
  · rw [if_neg hc] at h
    injection h with h
    subst h
    refine ⟨?_, ?_, ?_⟩
    · intro a ha
      simp only [List.mem_map] at ha
      obtain ⟨i, _, rfl⟩ := ha
      rfl
    · intro i h1 h2
      rw [List.getD_eq_getElem _ _ (by simpa using h2)]
      simp only [List.getElem_map, List.getElem_range]
      rw [if_neg (by omega)]
      show ((crossover _ _ _).mutate _).timeSinceLast = 0
      rw [mutate_timeSinceLast, crossover_timeSinceLast]
    · intro i hi
      have hi' : i < axols.length := lt_of_lt_of_le hi (Nat.div_le_self _ _)
      rw [List.getD_eq_getElem _ _ (by simpa using hi')]
      simp only [List.getElem_map, List.getElem_range]
      rw [if_pos hi]
      rfl

/-- The concrete next generation of `[axolHungry, axolMid]`. -/
def outHungry : List Axol :=
  (evolvePopulation [axolHungry, axolMid] (fun _ => constChildDraws)).getD []

/-- C5 witness: the amended reset behaviour on `[axolHungry, axolMid]`. -/
theorem evolvePopulation_reset_fields_witness :
    (∀ a ∈ outHungry, a.consumedFood = 0) ∧
      (∀ i, ([axolHungry, axolMid] : List Axol).length / 2 ≤ i →
        i < ([axolHungry, axolMid] : List Axol).length →
        (outHungry.getD i dummyAxol).timeSinceLast = 0) ∧
      (∀ i < ([axolHungry, axolMid] : List Axol).length / 2,
        (outHungry.getD i dummyAxol).timeSinceLast =
          ((rankByFitness [axolHungry, axolMid]).getD i dummyAxol).timeSinceLast) :=
  evolvePopulation_reset_fields [axolHungry, axolMid] (fun _ => constChildDraws)
    outHungry
    (by unfold outHungry
        simp only [evolvePopulation]
        rw [if_neg (by norm_num)]
        rfl)

/-! ### C2: consumption does not remove the resource -/

/-- A food source at the arena midpoint, right on `axolMid`. -/
def foodMid : Food :=
  { pos := ⟨450, 350⟩, radius := 4, color := ⟨10, 10, 10, 150⟩,
    biome := 0, nutrition := 1 }

/-- Constant draws for one `NewFood`. -/
def constFoodDraws : FoodDraws :=
  { px := 1/2, py := 1/2, radius := 1/2, cr := 10, cg := 10, cb := 10,
    nutrition := 1/2, biome := 0 }

theorem integratePos_axolMid_zero : integratePos axolMid 0 = (⟨450, 350⟩ : Vec) := by
  rw [integratePos_zero]
  rfl

theorem firstFoodInRange_mid :
    firstFoodInRange (⟨450, 350⟩ : Vec) [foodMid] = some foodMid := by
  simp only [firstFoodInRange]
  rw [show ((⟨450, 350⟩ : Vec).to' foodMid.pos) = ⟨0, 0⟩ by
        unfold foodMid Vec.to'
        norm_num,
      Vec.len_zero,
      if_pos (by norm_num [consumeRadius])]

/--
C2, counterexample to the claim as stated.  Two entities sit exactly on
the single food source; during one tick (`dt = 0`, spawn draw `1/2` so
no spawn) *both* consume it — each `consumedFood` rises to 1 — yet the
food is still in the live resource set after the tick: consumption
never removes anything, and the same resource is consumed twice.
-/
theorem C2_counterexample :
    ((tickWorld [axolMid, axolMid] [foodMid] 0 (fun _ => constUpdateDraws)
        (1/2) constFoodDraws).1.getD 0 dummyAxol).consumedFood = 1 ∧
      ((tickWorld [axolMid, axolMid] [foodMid] 0 (fun _ => constUpdateDraws)
          (1/2) constFoodDraws).1.getD 1 dummyAxol).consumedFood = 1 ∧
      (tickWorld [axolMid, axolMid] [foodMid] 0 (fun _ => constUpdateDraws)
          (1/2) constFoodDraws).2 = [foodMid] := by
  have hupd : (axolMid.update 0 [foodMid] constUpdateDraws).consumedFood = 1 := by
    rw [Axol.update_consumedFood, integratePos_axolMid_zero, firstFoodInRange_mid]
    rfl
  refine ⟨?_, ?_, ?_⟩
  · simpa [tickWorld, List.range_succ] using hupd
  · simpa [tickWorld, List.range_succ] using hupd
  · simp only [tickWorld, updateFoodSources]
    rw [if_neg (by norm_num [foodSpawnRate])]

/--
C2, amended: during a tick no resource is ever removed from the live
set — the food list after a tick is the pre-tick list, in order, plus
at most one stochastically spawned food.  Consumption only increments
the eater's counter (see the counterexample for a double consumption);
resources disappear solely through the bulk clear at a generation
boundary.
-/
theorem tick_never_removes_food (axols : List Axol) (foods : List Food)
    (dt : ℝ) (ad : ℕ → UpdateDraws) (sd : ℝ) (fd : FoodDraws) :
    ∃ spawned, (tickWorld axols foods dt ad sd fd).2 = foods ++ spawned := by
  unfold tickWorld updateFoodSources
  split_ifs
  · exact ⟨[NewFood fd], rfl⟩
  · exact ⟨[], by simp⟩

/-! ### C7: what a zero-time tick can still change -/

/-- An axol stranded past the right wall (one-tick overshoot state). -/
def axolOut : Axol := { axolMid with pos := ⟨950, 350⟩ }

/--
C7, counterexample to the claim as stated, in three parts, all at
`deltaTime = 0`: (1) an entity sitting on a food source still consumes
it, so `consumedCount` changes; (2) an out-of-bounds entity still has
its x-velocity reflected, so velocity changes; (3) the spawn trial
ignores `deltaTime`, so a spawn draw below the 0.01 spawn rate spawns
a resource even in a zero-time tick.
-/
theorem C7_counterexample :
    (axolMid.update 0 [foodMid] constUpdateDraws).consumedFood ≠
        axolMid.consumedFood ∧
      (axolOut.update 0 [] constUpdateDraws).vel ≠ axolOut.vel ∧
      updateFoodSources [] 0 (1/200) constFoodDraws ≠ [] := by
  refine ⟨?_, ?_, ?_⟩
  · rw [Axol.update_consumedFood, integratePos_axolMid_zero, firstFoodInRange_mid]
    simp [axolMid]
  · have hpos : integratePos axolOut 0 = (⟨950, 350⟩ : Vec) := by
      rw [integratePos_zero]; rfl
    have hb : bounceVel (⟨950, 350⟩ : Vec) axolOut.vel = ⟨-50, 0⟩ := by
      unfold bounceVel
      rw [if_pos (Or.inr (by norm_num [windowWidth])),
          if_neg (by norm_num [windowHeight])]
      show (⟨-axolOut.vel.x, axolOut.vel.y⟩ : Vec) = ⟨-50, 0⟩
      norm_num [axolOut, axolMid]
    rw [Axol.update_vel, hpos, hb,
        steerVel_none _ _ _ _ _ _ (findNearestFood_nil _)]
    have hz : (Vec.mk (constUpdateDraws.rx * 2 - 1)
        (constUpdateDraws.ry * 2 - 1)).scaled (0 * axolOut.genome.speed) =
          ⟨0, 0⟩ := by
      unfold Vec.scaled
      norm_num
    rw [hz]
    have hadd : (Vec.mk (-50) 0).add ⟨0, 0⟩ = ⟨-50, 0⟩ := by
      unfold Vec.add
      norm_num
    rw [hadd, Vec.unit_scaled_self ⟨-50, 0⟩ axolOut.genome.speed
      (by norm_num [axolOut, axolMid, speciesGenome])
      (by simpa [axolOut, axolMid, speciesGenome] using
        Vec.len_axis_neg 50 (by norm_num))]
    intro hcontr
    have := congrArg Vec.x hcontr
    simp only [axolOut, axolMid] at this
    norm_num at this
  · unfold updateFoodSources
    rw [if_pos (by norm_num [foodSpawnRate])]
    simp

/--
C7, amended: a `deltaTime = 0` tick leaves an entity's position
unchanged, and also leaves its velocity and `consumedCount` unchanged
*provided* the entity is inside the arena (no boundary reflection
fires), its velocity magnitude already equals `genome.speed > 0` (the
unconditional renormalization is then the identity), and no resource
lies within the consumption radius.  Resource spawning is independent
of `deltaTime` and fires whenever the spawn draw is below the spawn
rate (see the counterexample).
-/
theorem zero_dt_tick_unchanged (a : Axol) (foods : List Food) (d : UpdateDraws)
    (hx0 : 0 ≤ a.pos.x) (hx1 : a.pos.x ≤ windowWidth)
    (hy0 : 0 ≤ a.pos.y) (hy1 : a.pos.y ≤ windowHeight)
    (hlen : a.vel.len = a.genome.speed) (hsp : 0 < a.genome.speed)
    (hfar : ∀ f ∈ foods, ¬ (a.pos.to' f.pos).len ≤ consumeRadius) :
    (a.update 0 foods d).pos = a.pos ∧ (a.update 0 foods d).vel = a.vel ∧
      (a.update 0 foods d).consumedFood = a.consumedFood := by
  have hpos : integratePos a 0 = a.pos := integratePos_zero a
  have hbounce : bounceVel a.pos a.vel = a.vel := by
    unfold bounceVel
    rw [if_neg (by push_neg; exact ⟨hx0, hx1⟩),
        if_neg (by push_neg; exact ⟨hy0, hy1⟩)]
  have hsteer : ∀ w : Vec,
      ((a.vel.add (w.scaled (0 * a.genome.speed))).unit).scaled a.genome.speed =
        a.vel := by
    intro w
    have hz : w.scaled (0 * a.genome.speed) = ⟨0, 0⟩ := by
      unfold Vec.scaled
      norm_num
    have hadd : a.vel.add ⟨0, 0⟩ = a.vel := by
      unfold Vec.add
      show (⟨a.vel.x + 0, a.vel.y + 0⟩ : Vec) = a.vel
      norm_num
    rw [hz, hadd]
    exact Vec.unit_scaled_self _ _ hsp hlen
  refine ⟨?_, ?_, ?_⟩
  · rw [Axol.update_pos, hpos]
  · rw [Axol.update_vel, hpos, hbounce]
    cases hnf : findNearestFood a.pos foods with
    | none => rw [steerVel_none _ _ _ _ _ _ hnf]; exact hsteer _
    | some nf =>
      rw [steerVel_some _ _ _ _ _ _ _ hnf]
      split_ifs
      · exact hsteer _
      · exact hsteer _
  · rw [Axol.update_consumedFood, hpos, firstFoodInRange_eq_none _ _ hfar]
    rfl

/-- C7 witness: a zero-time tick on `axolMid`, in bounds, at template
speed, with no food around, changes nothing. -/
theorem zero_dt_tick_unchanged_witness :
    (axolMid.update 0 [] constUpdateDraws).pos = axolMid.pos ∧
      (axolMid.update 0 [] constUpdateDraws).vel = axolMid.vel ∧
      (axolMid.update 0 [] constUpdateDraws).consumedFood =
        axolMid.consumedFood :=
  zero_dt_tick_unchanged axolMid [] constUpdateDraws
    (by norm_num [axolMid]) (by norm_num [axolMid, windowWidth])
    (by norm_num [axolMid]) (by norm_num [axolMid, windowHeight])
    (by simpa [axolMid, speciesGenome] using Vec.len_axis 50 (by norm_num))
    (by norm_num [axolMid, speciesGenome]) (by simp)

/-! ### C8: behaviour at a boundary overshoot -/

/-- An axol just past the right wall (`x = arenaWidth + 1`), moving
right at its genome speed. -/
def axolEdge : Axol := { axolMid with pos := ⟨901, 350⟩ }

/--
C8, counterexample to the claim as stated.  `axolEdge` starts at
`x = arenaWidth + ε` with `ε = 1` and positive x-velocity 50; after one
tick with `deltaTime = 1` its x-position is 951, *greater* than
`arenaWidth + ε = 901`: the source integrates the old (outward)
velocity before the boundary check, so the position moves further out
during the tick in which the velocity is reflected.
-/
theorem C8_counterexample :
    (axolEdge.update 1 [] constUpdateDraws).pos.x = 951 ∧
      ¬ ((axolEdge.update 1 [] constUpdateDraws).pos.x ≤ windowWidth + 1) := by
  have h : (axolEdge.update 1 [] constUpdateDraws).pos.x = 951 := by
    rw [Axol.update_pos]
    show axolEdge.pos.x + axolEdge.vel.x * 1 = 951
    norm_num [axolEdge, axolMid]
  refine ⟨h, ?_⟩
  rw [h]
  norm_num [windowWidth]

/--
C8, amended: an entity at `x = arenaWidth + ε` (`ε > 0`) with positive
x-velocity has, after one tick, x-position exactly
`(arenaWidth + ε) + velX·deltaTime` — an overshoot that grows with the
outward speed for `deltaTime > 0` and stays put for `deltaTime = 0` —
while the boundary check does negate the x-velocity (the subsequent
steering re-blend may change it again for `deltaTime > 0`).
-/
theorem boundary_overshoot_reflection (a : Axol) (foods : List Food)
    (d : UpdateDraws) (dt : ℝ) (hx : windowWidth < a.pos.x)
    (hv : 0 < a.vel.x) (hdt : 0 ≤ dt) :
    (a.update dt foods d).pos.x = a.pos.x + a.vel.x * dt ∧
      (bounceVel (integratePos a dt) a.vel).x = -a.vel.x ∧
      (bounceVel (integratePos a dt) a.vel).x < 0 := by
  have hix : (integratePos a dt).x = a.pos.x + a.vel.x * dt := rfl
  have hcond : windowWidth < (integratePos a dt).x := by
    rw [hix]
    nlinarith
  have h2 : (bounceVel (integratePos a dt) a.vel).x = -a.vel.x := by
    unfold bounceVel
    show (if (integratePos a dt).x < 0 ∨ windowWidth < (integratePos a dt).x
      then -a.vel.x else a.vel.x) = -a.vel.x
    rw [if_pos (Or.inr hcond)]
  refine ⟨?_, h2, ?_⟩
  · rw [Axol.update_pos, hix]
  · rw [h2]
    linarith

/-- C8 witness: `axolEdge` after a one-second tick. -/
theorem boundary_overshoot_reflection_witness :
    (axolEdge.update 1 [] constUpdateDraws).pos.x =
        axolEdge.pos.x + axolEdge.vel.x * 1 ∧
      (bounceVel (integratePos axolEdge 1) axolEdge.vel).x =
        -axolEdge.vel.x ∧
      (bounceVel (integratePos axolEdge 1) axolEdge.vel).x < 0 :=
  boundary_overshoot_reflection axolEdge [] constUpdateDraws 1
    (by norm_num [axolEdge, axolMid, windowWidth])
    (by norm_num [axolEdge, axolMid]) (by norm_num)

/-! ### C9: zero-length vectors in the steering normalization -/

/-- An axol at rest (zero velocity) at the arena midpoint. -/
def axolZero : Axol := { axolMid with vel := ⟨0, 0⟩ }

theorem foodMid_sub_mid : foodMid.pos.sub (⟨450, 350⟩ : Vec) = ⟨0, 0⟩ := by
  unfold foodMid Vec.sub
  norm_num

/--
C9, counterexample to the claim as stated.  `axolZero` sits exactly on
the food source, so the direction-to-resource vector has length 0; the
claim asserts the update then performs *no steering change*, but
pixel's `Unit` maps the zero vector to `(1, 0)` and the entity is
steered to velocity `(speed, 0) = (50, 0) ≠ (0, 0)` — a real steering
change (though no NaN is produced).
-/
theorem C9_counterexample :
    (axolZero.update 1 [foodMid] constUpdateDraws).vel ≠ axolZero.vel := by
  have hpos : integratePos axolZero 1 = (⟨450, 350⟩ : Vec) := by
    unfold integratePos Vec.add Vec.scaled
    show (⟨axolZero.pos.x + axolZero.vel.x * 1,
      axolZero.pos.y + axolZero.vel.y * 1⟩ : Vec) = _
    norm_num [axolZero, axolMid]
  have hb : bounceVel (⟨450, 350⟩ : Vec) axolZero.vel = ⟨0, 0⟩ := by
    unfold bounceVel
    rw [if_neg (by norm_num [windowWidth]), if_neg (by norm_num [windowHeight])]
    show (⟨axolZero.vel.x, axolZero.vel.y⟩ : Vec) = ⟨0, 0⟩
    norm_num [axolZero, axolMid]
  rw [Axol.update_vel, hpos, hb,
      steerVel_some _ _ _ _ _ _ _ (findNearestFood_single _ _)]
  rw [if_pos (by
    rw [show ((⟨450, 350⟩ : Vec).to' foodMid.pos) = ⟨0, 0⟩ by
          unfold foodMid Vec.to'
          norm_num,
        Vec.len_zero]
    norm_num [axolZero, axolMid, speciesGenome])]
  rw [foodMid_sub_mid, Vec.unit_zero]
  have hsp : axolZero.genome.speed = 50 := by
    norm_num [axolZero, axolMid, speciesGenome]
  rw [hsp]
  have hsc : (Vec.mk 1 0).scaled (1 * 50) = ⟨50, 0⟩ := by
    unfold Vec.scaled
    norm_num
  have hadd : (Vec.mk 0 0).add ⟨50, 0⟩ = ⟨50, 0⟩ := by
    unfold Vec.add
    norm_num
  rw [hsc, hadd, Vec.unit_scaled_self ⟨50, 0⟩ 50 (by norm_num)
    (Vec.len_axis 50 (by norm_num))]
  intro hcontr
  have := congrArg Vec.x hcontr
  simp only [axolZero] at this
  norm_num at this

/--
C9, amended: the update never divides by a zero length — pixel's
`Vec.Unit` maps the zero vector to the fixed unit vector `(1, 0)` — so
steering is total and no NaN can arise; the velocity after *every*
update has magnitude exactly `genome.speed` (for the non-negative
speeds the engine uses).  When the steered vector is zero this *is* a
steering change toward `(1, 0)` rather than "no change" (see the
counterexample).
-/
theorem update_vel_len_eq_speed (a : Axol) (dt : ℝ) (foods : List Food)
    (d : UpdateDraws) (h : 0 ≤ a.genome.speed) :
    ((a.update dt foods d).vel).len = a.genome.speed := by
  rw [Axol.update_vel]
  cases hnf : findNearestFood (integratePos a dt) foods with
  | none =>
    rw [steerVel_none _ _ _ _ _ _ hnf, Vec.len_scaled, Vec.len_unit, mul_one,
        abs_of_nonneg h]
  | some nf =>
    rw [steerVel_some _ _ _ _ _ _ _ hnf]
    split_ifs <;>
      rw [Vec.len_scaled, Vec.len_unit, mul_one, abs_of_nonneg h]

/-- C9 witness: the zero-direction configuration of the counterexample
still yields a well-defined velocity of magnitude `genome.speed`. -/
theorem update_vel_len_eq_speed_witness :
    ((axolZero.update 1 [foodMid] constUpdateDraws).vel).len =
      axolZero.genome.speed :=
  update_vel_len_eq_speed axolZero 1 [foodMid] constUpdateDraws
    (by norm_num [axolZero, axolMid, speciesGenome])

end


